import Mathlib

/-!
Verification development for the `EmailQCCheck` repository
(`src/zammad_email_qc.py`, class `ZammadEmailQC`).

The repository file present under `src/` contains the engine construction
(`__init__`, with the hard-coded scoring weights, empathy/tone phrase lists),
the template-pattern data (`load_template_patterns`), the database schema, and
the agent-store logic of `fetch_agent_info`.  The five sub-scorers, the
aggregator and the `score_email` entry point are code of this repository that
is not present under `src/`; those operations are modelled from the spec, as
marked in their doc comments.

Numbers are embedded as rationals (`ℚ`): the Python floats in the source
(0.25, 0.20, 0.15, thresholds, tolerances) are all exactly representable.
-/

namespace EmailQC

/-- Clamp a rational to the closed interval [0,1]. -/
def clamp01 (x : ℚ) : ℚ := max 0 (min 1 x)

/-- Boolean to rational indicator (1 for true, 0 for false). -/
def b2q (b : Bool) : ℚ := if b then 1 else 0

/-! ### A small regular-expression engine

The template patterns of `load_template_patterns` (src lines 147-168) use only
literals, the character classes `\w`, `\s`, `\d` (and the union class `[\w\s]`)
and `*` / `+` over a single character class.  The embedding represents exactly
these shapes; `+` over a class is encoded as a class character followed by a
class star, as `plusC` below. -/

/-- Python `\w` word characters (letters, digits, underscore). -/
def isWordChar (c : Char) : Bool := c.isAlphanum || c == '_'

/-- Python `\s` whitespace characters. -/
def isSpaceChar (c : Char) : Bool :=
  c == ' ' || c == '\t' || c == '\n' || c == '\r' || c == '\x0b' || c == '\x0c'

/-- Python `\d` digit characters. -/
def isDigitChar (c : Char) : Bool := c.isDigit

/-- Regular-expression shapes used by the source template patterns. -/
inductive Pat where
  | lit : List Char → Pat
  | cls : (Char → Bool) → Pat
  | star : (Char → Bool) → Pat
  | seq : Pat → Pat → Pat

/-- `c+` for a character class `c`: one class character then `c*`. -/
def plusC (p : Char → Bool) : Pat := Pat.seq (Pat.cls p) (Pat.star p)

/-- All remainders after consuming zero or more class characters (backtracking
semantics: every prefix of class characters may be consumed). -/
def starRems (p : Char → Bool) : List Char → List (List Char)
  | [] => [[]]
  | c :: t => (c :: t) :: (if p c then starRems p t else [])

/-- All remainders of `s` after matching `pat` at the start of `s`. -/
def matchRems : Pat → List Char → List (List Char)
  | Pat.lit l, s => if l.isPrefixOf s then [s.drop l.length] else []
  | Pat.cls _, [] => []
  | Pat.cls p, c :: t => if p c then [t] else []
  | Pat.star p, s => starRems p s
  | Pat.seq a b, s => (matchRems a s).flatMap (matchRems b)

/-- Does `pat` match starting exactly at the head of `s`? -/
def matchesHere (pat : Pat) (s : List Char) : Bool := !(matchRems pat s).isEmpty

/-- Does `pat` match at some position of `s` (Python `re.search` semantics)? -/
def searchAux (pat : Pat) : List Char → Bool
  | [] => matchesHere pat []
  | c :: t => matchesHere pat (c :: t) || searchAux pat t

/-- `re.search(pat, body)` as a Boolean. -/
def Pat.search (pat : Pat) (body : String) : Bool := searchAux pat body.toList

/-- Does any pattern of the list match somewhere in `body`? -/
def anyMatch (ps : List Pat) (body : String) : Bool := ps.any (fun p => p.search body)

/-! ### Template patterns (source `load_template_patterns`, src lines 141-168) -/

/-- The `'formatting_patterns'` sub-dictionary plus the three pattern lists
returned by `load_template_patterns`. -/
structure TemplatePatterns where
  greeting_patterns : List Pat
  signature_patterns : List Pat
  paragraph_breaks : Pat
  bullet_points : Pat
  numbered_list : Pat
  standard_closings : List Pat

/-- Embedding of `ZammadEmailQC.load_template_patterns` (src lines 141-168).
The greeting patterns are `Dear \w+`, `Hello \w+`, `Hi \w+`; the signature
patterns are `Best regards,\s*\n\s*[\w\s]+` and variants; the formatting
patterns are the paragraph break `\n\n`, the bullet pattern — literally the
three-character mojibake sequence U+00E2 U+20AC U+00A2 followed by `\s`, as in
the source bytes at line 160 — and the numbered list `\d+\.\s`; the standard
closings are three literal sentences. -/
def load_template_patterns : TemplatePatterns where
  greeting_patterns :=
    [ Pat.seq (Pat.lit "Dear ".toList) (plusC isWordChar)
    , Pat.seq (Pat.lit "Hello ".toList) (plusC isWordChar)
    , Pat.seq (Pat.lit "Hi ".toList) (plusC isWordChar) ]
  signature_patterns :=
    [ Pat.seq (Pat.lit "Best regards,".toList)
        (Pat.seq (Pat.star isSpaceChar) (Pat.seq (Pat.lit ['\n'])
          (Pat.seq (Pat.star isSpaceChar) (plusC (fun c => isWordChar c || isSpaceChar c)))))
    , Pat.seq (Pat.lit "Kind regards,".toList)
        (Pat.seq (Pat.star isSpaceChar) (Pat.seq (Pat.lit ['\n'])
          (Pat.seq (Pat.star isSpaceChar) (plusC (fun c => isWordChar c || isSpaceChar c)))))
    , Pat.seq (Pat.lit "Thanks,".toList)
        (Pat.seq (Pat.star isSpaceChar) (Pat.seq (Pat.lit ['\n'])
          (Pat.seq (Pat.star isSpaceChar) (plusC (fun c => isWordChar c || isSpaceChar c))))) ]
  paragraph_breaks := Pat.lit ['\n', '\n']
  bullet_points := Pat.seq (Pat.lit ['â', '€', '¢']) (Pat.cls isSpaceChar)
  numbered_list := Pat.seq (plusC isDigitChar) (Pat.seq (Pat.lit ['.']) (Pat.cls isSpaceChar))
  standard_closings :=
    [ Pat.lit "If you have any further questions, please don\x27t hesitate to contact us".toList
    , Pat.lit "Please let us know if you need any further assistance".toList
    , Pat.lit "We\x27re here to help if you need anything else".toList ]

/-! ### Engine construction (source `ZammadEmailQC.__init__`, src lines 41-88) -/

/-- The scoring-weights mapping.  The source keeps it as the dictionary
`self.scoring_weights`; the five keys are fixed, so it is embedded as a
record of five rationals. -/
structure ScoringWeights where
  spelling_grammar : ℚ
  tone : ℚ
  empathy : ℚ
  template_consistency : ℚ
  response_time : ℚ
deriving DecidableEq

/-- Sum of the five weights. -/
def sumWeights (w : ScoringWeights) : ℚ :=
  w.spelling_grammar + w.tone + w.empathy + w.template_consistency + w.response_time

/-- The hard-coded weights dictionary of `__init__` (src lines 63-69):
spelling_grammar 0.25, tone 0.20, empathy 0.20, template_consistency 0.20,
response_time 0.15. -/
def defaultWeights : ScoringWeights :=
  { spelling_grammar := 25/100
    tone := 20/100
    empathy := 20/100
    template_consistency := 20/100
    response_time := 15/100 }

/-- The empathy phrase list of `__init__` (src lines 72-76). -/
def empathy_phrases : List String :=
  [ "i understand", "i appreciate", "thank you for", "i\x27m sorry"
  , "we apologize", "we understand", "i can see why", "i recognize"
  , "this must be", "that sounds", "i can imagine", "we value" ]

/-- The positive tone phrase list of `__init__` (src lines 79-82). -/
def positive_phrases : List String :=
  [ "happy to help", "pleased to", "glad to", "looking forward"
  , "thank you", "appreciate", "welcome", "delighted" ]

/-- The negative tone phrase list of `__init__` (src lines 85-88). -/
def negative_phrases : List String :=
  [ "unfortunately", "cannot", "unable to", "not possible"
  , "you have to", "you must", "you should have", "policy states" ]

/-- The configuration state an engine instance holds after construction. -/
structure Engine where
  template_patterns : TemplatePatterns
  scoring_weights : ScoringWeights
  empathyList : List String
  positiveList : List String
  negativeList : List String

/-- Embedding of `ZammadEmailQC.__init__` (src lines 41-88), restricted to the
configuration it installs.  The constructor takes only a database path; the
scoring weights are hard-coded, no weights argument is accepted, and the body
contains no validation of the weights and no `ConfigurationError` (no such
exception exists anywhere in the source). -/
def ZammadEmailQC.mk (_db_path : String) : Engine :=
  { template_patterns := load_template_patterns
    scoring_weights := defaultWeights
    empathyList := empathy_phrases
    positiveList := positive_phrases
    negativeList := negative_phrases }

/-- The spec's error taxonomy for engine construction (§7). -/
inductive ConfigError where
  | configurationError
deriving DecidableEq

/-- The outcome of running the source constructor: it has no failure path
related to the weights, so construction always succeeds. -/
def sourceConstruct (db_path : String) : Except ConfigError Engine :=
  Except.ok (ZammadEmailQC.mk db_path)

/-- Modelled from the spec (refinement comparison, §7/§8): the spec claims a
constructor that takes a weights mapping and fails with `ConfigurationError`
when the weights do not sum to 1 within tolerance 1e-6.  This definition
follows the spec's words, to be compared with `sourceConstruct`, the
constructor actually present in the source. -/
def specConstruct (db_path : String) (w : ScoringWeights) : Except ConfigError Engine :=
  if |sumWeights w - 1| ≤ 1/1000000 then
    Except.ok { ZammadEmailQC.mk db_path with scoring_weights := w }
  else
    Except.error ConfigError.configurationError

/-! ### Data model for scoring (spec §3)

The five sub-scorers, the aggregator and `score_email` are code of this
repository not present under `src/`; each is modelled from the spec. -/

/-- Immutable input to scoring (spec §3).  Timestamps are rationals counting
minutes; either may be absent. -/
structure EmailSample where
  body : String
  ticket_id : Nat
  article_id : Nat
  agent_id : Nat
  received_at : Option ℚ
  first_response_at : Option ℚ

/-- One sub-scorer's output (spec §3): a score in [0,1], or `none` when the
sub-score is indeterminate (BackendUnavailable fallback, spec §4.1/§7), plus a
details record of metric name to value. -/
structure SubScoreResult where
  score : Option ℚ
  details : List (String × ℚ)

/-- One scoring outcome (spec §3): sub-scores (indeterminate ones as `none`),
total score, feedback and recommendations. -/
structure QCResult where
  ticket_id : Nat
  article_id : Nat
  agent_id : Nat
  timestamp : String
  email_body : String
  spelling_grammar_score : Option ℚ
  tone_score : Option ℚ
  empathy_score : Option ℚ
  template_consistency_score : Option ℚ
  response_time_score : Option ℚ
  total_score : ℚ
  feedback : List String
  recommendations : List String

/-! ### Phrase counting -/

/-- ASCII lower-casing of one character. -/
def lowerChar (c : Char) : Char :=
  if 65 ≤ c.toNat ∧ c.toNat ≤ 90 then Char.ofNat (c.toNat + 32) else c

/-- Lower-cased character list of a string. -/
def lowerList (body : String) : List Char := body.toList.map lowerChar

/-- Number of occurrences of `phrase` in `s` (each start position counted,
overlapping occurrences allowed). -/
def countOccs (phrase : List Char) : List Char → Nat
  | [] => if phrase.isPrefixOf ([] : List Char) then 1 else 0
  | c :: t => (if phrase.isPrefixOf (c :: t) then 1 else 0) + countOccs phrase t

/-- Total occurrence count of a phrase list in the lower-cased body
(case-insensitive substring matching; each phrase counted independently). -/
def phraseCount (phrases : List String) (body : String) : Nat :=
  (phrases.map (fun p => countOccs p.toList (lowerList body))).sum

/-! ### Sub-scorers (modelled from the spec) -/

/-- Number of maximal non-whitespace runs; `inWord` records whether the scan
currently stands inside a word. -/
def countWords (inWord : Bool) : List Char → Nat
  | [] => 0
  | c :: t =>
    if isSpaceChar c then countWords false t
    else (if inWord then 0 else 1) + countWords true t

/-- Number of whitespace-separated words in the body. -/
def wordCount (body : String) : Nat := countWords false body.toList

/-- Modelled from the spec: the Spelling/Grammar Scorer (§4.1) is missing from
`src/`.  The checker backend maps the body to counts of (spelling, grammar)
issues; `none` means the backend is unavailable.  Score
`max(0, 1 - (spelling_errors + grammar_errors) / normalization)` clamped to
[0,1], with the normalization defaulting to the word count (at least 1); when
the backend is unavailable the sub-score is indeterminate (`none`), not
zero. -/
def check_spelling_grammar (checker : Option (String → Nat × Nat)) (body : String) :
    SubScoreResult :=
  match checker with
  | none => { score := none, details := [("backend_unavailable", 1)] }
  | some f =>
    let errs := f body
    let norm : ℚ := max 1 (wordCount body : ℚ)
    { score := some (clamp01 (1 - ((errs.1 : ℚ) + (errs.2 : ℚ)) / norm))
      details := [("spelling_errors", (errs.1 : ℚ)), ("grammar_errors", (errs.2 : ℚ))] }

/-- Tolerance for a neutral sentiment (spec §4.2 tie-break). -/
def toneEps : ℚ := 1/1000000

/-- Per-match tone adjustment (spec §4.2: bounded additive boost/penalty). -/
def toneStep : ℚ := 1/10

/-- Modelled from the spec: the Tone Scorer (§4.2) is missing from `src/`.
`sentiment` is the lexicon-based polarity backend in [-1,1].  Base
`(sentiment+1)/2`, boosted per positive-phrase match and penalized per
negative-phrase match with clamping after each adjustment; if the sentiment is
within `toneEps` of 0 and no phrase matches occur, the score defaults to
0.5. -/
def check_tone (sentiment : String → ℚ) (positives negatives : List String)
    (body : String) : SubScoreResult :=
  let sent := sentiment body
  let p := phraseCount positives body
  let n := phraseCount negatives body
  let score :=
    if |sent| ≤ toneEps ∧ p = 0 ∧ n = 0 then (1 : ℚ)/2
    else clamp01 (clamp01 ((sent + 1)/2 + (p : ℚ) * toneStep) - (n : ℚ) * toneStep)
  { score := some score
    details := [("sentiment_score", sent), ("positive_count", (p : ℚ)), ("negative_count", (n : ℚ))] }

/-- Expected number of empathy phrases per email (spec §4.3 default). -/
def empathyTarget : ℚ := 2

/-- Count of empathy-phrase occurrences in the lower-cased body (spec §4.3). -/
def empathyCount (phrases : List String) (body : String) : Nat :=
  phraseCount phrases body

/-- Modelled from the spec: the Empathy Scorer (§4.3) is missing from `src/`.
Score `min(1, count / target_count)` with `target_count = 2`. -/
def check_empathy (phrases : List String) (body : String) : SubScoreResult :=
  let c := empathyCount phrases body
  { score := some (min 1 ((c : ℚ) / empathyTarget))
    details := [("empathy_phrases_count", (c : ℚ))] }

/-- The formatting-cue criterion (spec §4.4): at least one of the three
formatting patterns of `load_template_patterns` matches. -/
def formattingCue (tp : TemplatePatterns) (body : String) : Bool :=
  tp.paragraph_breaks.search body || tp.bullet_points.search body ||
    tp.numbered_list.search body

/-- Number of the four structural criteria satisfied by `body` (spec §4.4). -/
def matchedCriteria (tp : TemplatePatterns) (body : String) : Nat :=
  (if anyMatch tp.greeting_patterns body then 1 else 0) +
  (if anyMatch tp.signature_patterns body then 1 else 0) +
  (if anyMatch tp.standard_closings body then 1 else 0) +
  (if formattingCue tp body then 1 else 0)

/-- Modelled from the spec: the Template-Consistency Scorer (§4.4) is missing
from `src/`.  Four independent structural criteria — greeting, signature,
standard closing, formatting cue — each checked against the pattern data of
`load_template_patterns`; score = (number of criteria satisfied) / 4. -/
def check_template_consistency (tp : TemplatePatterns) (body : String) : SubScoreResult :=
  let g := anyMatch tp.greeting_patterns body
  let s := anyMatch tp.signature_patterns body
  let c := anyMatch tp.standard_closings body
  let f := formattingCue tp body
  { score := some ((b2q g + b2q s + b2q c + b2q f) / 4)
    details := [("greeting", b2q g), ("signature", b2q s), ("closing", b2q c), ("formatting", b2q f)] }

/-- The step function from elapsed minutes to score (spec §4.5 defaults):
≤15 min → 1.0, ≤60 min → 0.8, ≤240 min → 0.5, >240 min → 0.2. -/
def responseTimeBucket (mins : ℚ) : ℚ :=
  if mins ≤ 15 then 1
  else if mins ≤ 60 then 8/10
  else if mins ≤ 240 then 5/10
  else 2/10

/-- Modelled from the spec: the Response-Time Scorer (§4.5) is missing from
`src/`.  With both timestamps present the elapsed minutes go through the step
function; if either timestamp is missing the scorer returns the neutral
default 0.5 and flags incomplete data in its details instead of failing. -/
def check_response_time (received_at first_response_at : Option ℚ) : SubScoreResult :=
  match received_at, first_response_at with
  | some r, some f =>
    let mins := f - r
    { score := some (responseTimeBucket mins)
      details := [("response_time_mins", mins), ("incomplete_data", 0)] }
  | _, _ => { score := some ((1 : ℚ)/2), details := [("incomplete_data", 1)] }

/-! ### Aggregator and entry point (modelled from the spec, §4.6 and §6) -/

/-- Numerator contribution of one sub-score: `weight * score` when active,
0 when indeterminate. -/
def activeNum (w : ℚ) (s : Option ℚ) : ℚ :=
  match s with
  | none => 0
  | some v => w * v

/-- Denominator contribution of one sub-score: its weight when active, 0 when
indeterminate. -/
def activeDen (w : ℚ) (s : Option ℚ) : ℚ :=
  match s with
  | none => 0
  | some _ => w

/-- Modelled from the spec: the Aggregator's total (§4.6) is missing from
`src/`.  `total = 100 * Σ(weight_i * score_i) / Σ(active weights)`, where a
sub-score is active unless indeterminate; inactive weights are excluded from
both sums, which renormalizes the remaining active weights. -/
def aggregateTotal (w : ScoringWeights) (sg t e tc rt : Option ℚ) : ℚ :=
  100 * ((activeNum w.spelling_grammar sg + activeNum w.tone t + activeNum w.empathy e +
      activeNum w.template_consistency tc + activeNum w.response_time rt) /
    (activeDen w.spelling_grammar sg + activeDen w.tone t + activeDen w.empathy e +
      activeDen w.template_consistency tc + activeDen w.response_time rt))

/-- Feedback threshold below which a sub-score draws a remark (spec §4.6
default 0.6). -/
def feedbackThreshold : ℚ := 6/10

/-- Modelled from the spec: feedback generation (§4.6) is missing from `src/`.
One templated remark per sub-score below the threshold, and one per
indeterminate sub-score. -/
def feedbackFor (name : String) (s : Option ℚ) : List String :=
  match s with
  | none => ["indeterminate " ++ name]
  | some v => if v < feedbackThreshold then ["low " ++ name] else []

/-- Modelled from the spec: `score_email` (§6) is missing from `src/`.  The
single entry point: runs the five sub-scorers on the sample, aggregates the
total, and builds the (unpersisted) `QCResult`.  `checker` and `sentiment`
are the engine-held text-analysis backends; `timestamp` is the creation time
recorded in the result and influences no other field. -/
def score_email (checker : Option (String → Nat × Nat)) (sentiment : String → ℚ)
    (tp : TemplatePatterns) (empathyL positiveL negativeL : List String)
    (w : ScoringWeights) (timestamp : String) (sample : EmailSample) : QCResult :=
  let sg := check_spelling_grammar checker sample.body
  let t := check_tone sentiment positiveL negativeL sample.body
  let e := check_empathy empathyL sample.body
  let tc := check_template_consistency tp sample.body
  let rt := check_response_time sample.received_at sample.first_response_at
  { ticket_id := sample.ticket_id
    article_id := sample.article_id
    agent_id := sample.agent_id
    timestamp := timestamp
    email_body := sample.body
    spelling_grammar_score := sg.score
    tone_score := t.score
    empathy_score := e.score
    template_consistency_score := tc.score
    response_time_score := rt.score
    total_score := aggregateTotal w sg.score t.score e.score tc.score rt.score
    feedback :=
      feedbackFor "spelling_grammar" sg.score ++ feedbackFor "tone" t.score ++
      feedbackFor "empathy" e.score ++ feedbackFor "template_consistency" tc.score ++
      feedbackFor "response_time" rt.score
    recommendations :=
      feedbackFor "spelling_grammar" sg.score ++ feedbackFor "tone" t.score ++
      feedbackFor "empathy" e.score ++ feedbackFor "template_consistency" tc.score ++
      feedbackFor "response_time" rt.score }

/-! ### Agent store (source `fetch_agent_info`, src lines 170-186) -/

/-- A row of the `agents` table (src lines 96-102). -/
structure Agent where
  id : Nat
  name : String
  email : String
deriving DecidableEq, BEq

/-- Embedding of the agent-store logic of `ZammadEmailQC.fetch_agent_info`
(src lines 178-186): `SELECT id FROM agents WHERE id = ?`; only when no row
comes back, `INSERT INTO agents (id, name, email) VALUES (?, ?, ?)`.  The
store is the list of rows of the `agents` table; `name`/`email` are the
values the Zammad API returned for this encounter. -/
def fetch_agent_store (store : List Agent) (agent_id : Nat) (name email : String) :
    List Agent :=
  if store.any (fun a => a.id == agent_id) then store
  else store ++ [{ id := agent_id, name := name, email := email }]

/-! ### Concrete inputs used by counterexamples and witnesses -/

/-- A weights mapping whose sum (1.4) differs from 1 beyond the tolerance. -/
def badWeights : ScoringWeights :=
  { spelling_grammar := 7/10
    tone := 7/10
    empathy := 0
    template_consistency := 0
    response_time := 0 }

/-- A sample whose `received_at` timestamp is absent. -/
def sampleMissingReceived : EmailSample :=
  { body := "hello"
    ticket_id := 1
    article_id := 2
    agent_id := 3
    received_at := none
    first_response_at := some 10 }

/-- A sample with an empty email body. -/
def emptyBodySample (tid aid gid : Nat) (ra fr : Option ℚ) : EmailSample :=
  { body := ""
    ticket_id := tid
    article_id := aid
    agent_id := gid
    received_at := ra
    first_response_at := fr }

/-- A body whose second bullet is marked with the Unicode bullet `•` but whose
first also contains the mojibake sequence the source pattern expects. -/
def mojibakeBody : String := "â€¢ x and • y"

/-! ### Helper lemmas -/

theorem clamp01_nonneg (x : ℚ) : 0 ≤ clamp01 x := le_max_left 0 _

theorem clamp01_le_one (x : ℚ) : clamp01 x ≤ 1 := by
  unfold clamp01
  rcases le_total 0 (min 1 x) with h | h
  · rw [max_eq_right h]; exact min_le_left 1 x
  · rw [max_eq_left h]; norm_num

theorem b2q_nonneg (b : Bool) : 0 ≤ b2q b := by cases b <;> simp [b2q]

theorem b2q_le_one (b : Bool) : b2q b ≤ 1 := by cases b <;> simp [b2q]

/-- Every score the spelling/grammar scorer reports lies in [0,1]. -/
theorem check_spelling_grammar_mem (checker : Option (String → Nat × Nat)) (body : String)
    (v : ℚ) (h : (check_spelling_grammar checker body).score = some v) : 0 ≤ v ∧ v ≤ 1 := by
  cases checker with
  | none => simp [check_spelling_grammar] at h
  | some f =>
    simp only [check_spelling_grammar, Option.some.injEq] at h
    exact h ▸ ⟨clamp01_nonneg _, clamp01_le_one _⟩

/-- Every score the tone scorer reports lies in [0,1]. -/
theorem check_tone_mem (sentiment : String → ℚ) (positives negatives : List String)
    (body : String) (v : ℚ)
    (h : (check_tone sentiment positives negatives body).score = some v) : 0 ≤ v ∧ v ≤ 1 := by
  simp only [check_tone, Option.some.injEq] at h
  subst h
  split
  · norm_num
  · exact ⟨clamp01_nonneg _, clamp01_le_one _⟩

/-- Every score the empathy scorer reports lies in [0,1]. -/
theorem check_empathy_mem (phrases : List String) (body : String) (v : ℚ)
    (h : (check_empathy phrases body).score = some v) : 0 ≤ v ∧ v ≤ 1 := by
  simp only [check_empathy, Option.some.injEq] at h
  subst h
  constructor
  · exact le_min (by norm_num)
      (div_nonneg (Nat.cast_nonneg _) (by norm_num [empathyTarget]))
  · exact min_le_left _ _

/-- Every score the template-consistency scorer reports lies in [0,1]. -/
theorem check_template_consistency_mem (tp : TemplatePatterns) (body : String) (v : ℚ)
    (h : (check_template_consistency tp body).score = some v) : 0 ≤ v ∧ v ≤ 1 := by
  simp only [check_template_consistency, Option.some.injEq] at h
  subst h
  have h0 : (0 : ℚ) ≤ b2q (anyMatch tp.greeting_patterns body) + b2q (anyMatch tp.signature_patterns body) + b2q (anyMatch tp.standard_closings body) + b2q (formattingCue tp body) := by
    have := b2q_nonneg (anyMatch tp.greeting_patterns body)
    have := b2q_nonneg (anyMatch tp.signature_patterns body)
    have := b2q_nonneg (anyMatch tp.standard_closings body)
    have := b2q_nonneg (formattingCue tp body)
    linarith
  have h4 : b2q (anyMatch tp.greeting_patterns body) + b2q (anyMatch tp.signature_patterns body) + b2q (anyMatch tp.standard_closings body) + b2q (formattingCue tp body) ≤ 4 := by
    have := b2q_le_one (anyMatch tp.greeting_patterns body)
    have := b2q_le_one (anyMatch tp.signature_patterns body)
    have := b2q_le_one (anyMatch tp.standard_closings body)
    have := b2q_le_one (formattingCue tp body)
    linarith
  constructor
  · positivity
  · rw [div_le_one (by norm_num)]; linarith

/-- The response-time step function always lands in [0,1]. -/
theorem responseTimeBucket_mem (mins : ℚ) : 0 ≤ responseTimeBucket mins ∧ responseTimeBucket mins ≤ 1 := by
  unfold responseTimeBucket
  split_ifs <;> norm_num

/-- Every score the response-time scorer reports lies in [0,1]. -/
theorem check_response_time_mem (received_at first_response_at : Option ℚ) (v : ℚ)
    (h : (check_response_time received_at first_response_at).score = some v) : 0 ≤ v ∧ v ≤ 1 := by
  cases received_at with
  | none => simp only [check_response_time, Option.some.injEq] at h; subst h; norm_num
  | some r =>
    cases first_response_at with
    | none => simp only [check_response_time, Option.some.injEq] at h; subst h; norm_num
    | some f =>
      simp only [check_response_time, Option.some.injEq] at h
      exact h ▸ responseTimeBucket_mem _

/-- Contributions of one sub-score to the aggregator's sums: the numerator part
is nonnegative and bounded by the denominator part, which is nonnegative. -/
theorem active_contrib_bounds (w : ℚ) (s : Option ℚ) (hw : 0 ≤ w)
    (hs : ∀ v, s = some v → 0 ≤ v ∧ v ≤ 1) :
    0 ≤ activeNum w s ∧ activeNum w s ≤ activeDen w s ∧ 0 ≤ activeDen w s := by
  cases s with
  | none => simp [activeNum, activeDen]
  | some v =>
    obtain ⟨h0, h1⟩ := hs v rfl
    refine ⟨mul_nonneg hw h0, ?_, hw⟩
    simpa [activeNum, activeDen] using mul_le_of_le_one_right hw h1

/-- The aggregated total lies in [0,100] whenever the weights are nonnegative
and every active sub-score lies in [0,1]. -/
theorem aggregateTotal_mem (w : ScoringWeights) (sg t e tc rt : Option ℚ)
    (hw1 : 0 ≤ w.spelling_grammar) (hw2 : 0 ≤ w.tone) (hw3 : 0 ≤ w.empathy)
    (hw4 : 0 ≤ w.template_consistency) (hw5 : 0 ≤ w.response_time)
    (hsg : ∀ v, sg = some v → 0 ≤ v ∧ v ≤ 1) (ht : ∀ v, t = some v → 0 ≤ v ∧ v ≤ 1)
    (he : ∀ v, e = some v → 0 ≤ v ∧ v ≤ 1) (htc : ∀ v, tc = some v → 0 ≤ v ∧ v ≤ 1)
    (hrt : ∀ v, rt = some v → 0 ≤ v ∧ v ≤ 1) :
    0 ≤ aggregateTotal w sg t e tc rt ∧ aggregateTotal w sg t e tc rt ≤ 100 := by
  obtain ⟨a1, a2, a3⟩ := active_contrib_bounds w.spelling_grammar sg hw1 hsg
  obtain ⟨b1, b2, b3⟩ := active_contrib_bounds w.tone t hw2 ht
  obtain ⟨c1, c2, c3⟩ := active_contrib_bounds w.empathy e hw3 he
  obtain ⟨d1, d2, d3⟩ := active_contrib_bounds w.template_consistency tc hw4 htc
  obtain ⟨e1, e2, e3⟩ := active_contrib_bounds w.response_time rt hw5 hrt
  unfold aggregateTotal
  set num := activeNum w.spelling_grammar sg + activeNum w.tone t + activeNum w.empathy e +
    activeNum w.template_consistency tc + activeNum w.response_time rt with hnum
  set den := activeDen w.spelling_grammar sg + activeDen w.tone t + activeDen w.empathy e +
    activeDen w.template_consistency tc + activeDen w.response_time rt with hden
  have hnum0 : 0 ≤ num := by rw [hnum]; linarith
  have hden0 : 0 ≤ den := by rw [hden]; linarith
  have hnd : num ≤ den := by rw [hnum, hden]; linarith
  rcases eq_or_lt_of_le hden0 with hz | hpos
  · rw [← hz, div_zero, mul_zero]
    norm_num
  · constructor
    · positivity
    · have h1 : num / den ≤ 1 := (div_le_one hpos).mpr hnd
      linarith

/-- A pattern that starts with the literal `l` cannot match anywhere in a
character list that contains no occurrence of `l`. -/
theorem searchAux_seq_lit_eq_false (l : List Char) (q : Pat) (s : List Char)
    (h : countOccs l s = 0) : searchAux (Pat.seq (Pat.lit l) q) s = false := by
  induction s with
  | nil =>
    cases hp : l.isPrefixOf ([] : List Char) with
    | true => simp [countOccs, hp] at h
    | false => simp [searchAux, matchesHere, matchRems, hp]
  | cons c t ih =>
    cases hp : l.isPrefixOf (c :: t) with
    | true =>
      simp only [countOccs, hp, if_true] at h
      exact absurd h (by omega)
    | false =>
      have h2 : countOccs l t = 0 := by
        simp only [countOccs, hp] at h
        simpa using h
      simp [searchAux, matchesHere, matchRems, hp, ih h2]

/-! ### Claim theorems -/

/-- C1 (counterexample): the claim asserts that constructing the engine with a
weights mapping whose sum differs from 1 beyond 1e-6 fails with
`ConfigurationError`.  At the concrete bad mapping (0.7, 0.7, 0, 0, 0) the
spec-described constructor `specConstruct` indeed fails, but the constructor
actually present in the source takes no weights mapping at all and always
succeeds — there is no `ConfigurationError` and no validation in `__init__`,
so the claimed failure cannot occur. -/
theorem C1_counterexample :
    |sumWeights badWeights - 1| > 1/1000000 ∧
    specConstruct "email_qc.db" badWeights =
      Except.error ConfigError.configurationError ∧
    sourceConstruct "email_qc.db" = Except.ok (ZammadEmailQC.mk "email_qc.db") := by
  have habs : |sumWeights badWeights - 1| = 2/5 := by
    have hsum : sumWeights badWeights - 1 = 2/5 := by norm_num [sumWeights, badWeights]
    rw [hsum]
    exact abs_of_nonneg (by norm_num)
  refine ⟨by rw [habs]; norm_num, ?_, rfl⟩
  rw [specConstruct, if_neg]
  rw [habs]
  norm_num

/-- C1 (amended): engine construction hard-codes the scoring weights
(0.25, 0.20, 0.20, 0.20, 0.15), whose sum is exactly 1 (hence within 1e-6 of
1); construction accepts no weights mapping and has no failure path, so no
engine with weights summing away from 1 can ever be constructed, but no
`ConfigurationError` is ever raised either. -/
theorem C1_weights_hardcoded (db : String) :
    (ZammadEmailQC.mk db).scoring_weights = defaultWeights ∧
    sumWeights (ZammadEmailQC.mk db).scoring_weights = 1 ∧
    |sumWeights (ZammadEmailQC.mk db).scoring_weights - 1| ≤ 1/1000000 ∧
    sourceConstruct db = Except.ok (ZammadEmailQC.mk db) := by
  refine ⟨rfl, ?_, ?_, rfl⟩ <;>
    norm_num [sumWeights, ZammadEmailQC.mk, defaultWeights]

/-- C2: `score_email` is deterministic: two invocations with identical
sample, weights, pattern set, phrase lists and backends — differing only in
the recorded timestamp — agree on every `QCResult` field except `timestamp`. -/
theorem C2_score_email_deterministic (checker : Option (String → Nat × Nat))
    (sentiment : String → ℚ) (tp : TemplatePatterns)
    (empathyL positiveL negativeL : List String) (w : ScoringWeights)
    (t1 t2 : String) (sample : EmailSample) :
    (score_email checker sentiment tp empathyL positiveL negativeL w t1 sample).ticket_id =
      (score_email checker sentiment tp empathyL positiveL negativeL w t2 sample).ticket_id ∧
    (score_email checker sentiment tp empathyL positiveL negativeL w t1 sample).article_id =
      (score_email checker sentiment tp empathyL positiveL negativeL w t2 sample).article_id ∧
    (score_email checker sentiment tp empathyL positiveL negativeL w t1 sample).agent_id =
      (score_email checker sentiment tp empathyL positiveL negativeL w t2 sample).agent_id ∧
    (score_email checker sentiment tp empathyL positiveL negativeL w t1 sample).email_body =
      (score_email checker sentiment tp empathyL positiveL negativeL w t2 sample).email_body ∧
    (score_email checker sentiment tp empathyL positiveL negativeL w t1 sample).spelling_grammar_score =
      (score_email checker sentiment tp empathyL positiveL negativeL w t2 sample).spelling_grammar_score ∧
    (score_email checker sentiment tp empathyL positiveL negativeL w t1 sample).tone_score =
      (score_email checker sentiment tp empathyL positiveL negativeL w t2 sample).tone_score ∧
    (score_email checker sentiment tp empathyL positiveL negativeL w t1 sample).empathy_score =
      (score_email checker sentiment tp empathyL positiveL negativeL w t2 sample).empathy_score ∧
    (score_email checker sentiment tp empathyL positiveL negativeL w t1 sample).template_consistency_score =
      (score_email checker sentiment tp empathyL positiveL negativeL w t2 sample).template_consistency_score ∧
    (score_email checker sentiment tp empathyL positiveL negativeL w t1 sample).response_time_score =
      (score_email checker sentiment tp empathyL positiveL negativeL w t2 sample).response_time_score ∧
    (score_email checker sentiment tp empathyL positiveL negativeL w t1 sample).total_score =
      (score_email checker sentiment tp empathyL positiveL negativeL w t2 sample).total_score ∧
    (score_email checker sentiment tp empathyL positiveL negativeL w t1 sample).feedback =
      (score_email checker sentiment tp empathyL positiveL negativeL w t2 sample).feedback ∧
    (score_email checker sentiment tp empathyL positiveL negativeL w t1 sample).recommendations =
      (score_email checker sentiment tp empathyL positiveL negativeL w t2 sample).recommendations :=
  ⟨rfl, rfl, rfl, rfl, rfl, rfl, rfl, rfl, rfl, rfl, rfl, rfl⟩

/-- C5: for every pattern set and every email body — hence over all 16
combinations of the four structural criteria — the template-consistency score
equals exactly (number of criteria satisfied) / 4. -/
theorem C5_template_score_quarters (tp : TemplatePatterns) (body : String) :
    (check_template_consistency tp body).score =
      some ((matchedCriteria tp body : ℚ) / 4) := by
  simp only [check_template_consistency, matchedCriteria, Option.some.injEq]
  cases anyMatch tp.greeting_patterns body <;>
    cases anyMatch tp.signature_patterns body <;>
      cases anyMatch tp.standard_closings body <;>
        cases formattingCue tp body <;>
          norm_num [b2q]

/-- C6: the empathy score is `min(1, count / 2)` (target_count default 2) and
is monotonically non-decreasing and saturating in the matched-phrase count:
a body with a greater-or-equal count receives a greater-or-equal score. -/
theorem C6_empathy_monotone_saturating (b1 b2 : String)
    (h : empathyCount empathy_phrases b1 ≤ empathyCount empathy_phrases b2) :
    ∃ v1 v2 : ℚ,
      (check_empathy empathy_phrases b1).score = some v1 ∧
      (check_empathy empathy_phrases b2).score = some v2 ∧
      v1 ≤ v2 ∧
      v1 = min 1 ((empathyCount empathy_phrases b1 : ℚ) / 2) ∧
      v2 = min 1 ((empathyCount empathy_phrases b2 : ℚ) / 2) := by
  refine ⟨_, _, rfl, rfl, ?_, ?_, ?_⟩
  · have hc : ((empathyCount empathy_phrases b1 : ℚ)) ≤
        (empathyCount empathy_phrases b2 : ℚ) := by exact_mod_cast h
    have ht : (0 : ℚ) < empathyTarget := by norm_num [empathyTarget]
    exact min_le_min le_rfl ((div_le_div_iff_of_pos_right ht).mpr hc)
  · simp [check_empathy, empathyTarget]
  · simp [check_empathy, empathyTarget]

/-- C6 witness: concrete bodies with counts 0 and 1. -/
theorem C6_witness :
    empathyCount empathy_phrases "" ≤ empathyCount empathy_phrases "i understand" ∧
    ∃ v1 v2 : ℚ,
      (check_empathy empathy_phrases "").score = some v1 ∧
      (check_empathy empathy_phrases "i understand").score = some v2 ∧
      v1 ≤ v2 ∧
      v1 = min 1 ((empathyCount empathy_phrases "" : ℚ) / 2) ∧
      v2 = min 1 ((empathyCount empathy_phrases "i understand" : ℚ) / 2) :=
  ⟨by decide, C6_empathy_monotone_saturating "" "i understand" (by decide)⟩

/-- C7: whenever `received_at` or `first_response_at` is absent, the
response-time scorer returns exactly 0.5, flags incomplete data in its
details, and (being a total function) does not fail; the neutral default is
what `score_email` records for the sample. -/
theorem C7_response_time_neutral_default (sample : EmailSample)
    (h : sample.received_at = none ∨ sample.first_response_at = none) :
    (check_response_time sample.received_at sample.first_response_at).score =
      some ((1 : ℚ)/2) ∧
    ("incomplete_data", (1 : ℚ)) ∈
      (check_response_time sample.received_at sample.first_response_at).details ∧
    ∀ (checker : Option (String → Nat × Nat)) (sentiment : String → ℚ)
      (tp : TemplatePatterns) (empathyL positiveL negativeL : List String)
      (w : ScoringWeights) (t : String),
      (score_email checker sentiment tp empathyL positiveL negativeL w t
          sample).response_time_score = some ((1 : ℚ)/2) := by
  have hck : check_response_time sample.received_at sample.first_response_at =
      { score := some ((1 : ℚ)/2), details := [("incomplete_data", 1)] } := by
    rcases h with h | h
    · rw [h]; cases sample.first_response_at <;> rfl
    · rw [h]; cases sample.received_at <;> rfl
  refine ⟨by rw [hck], by rw [hck]; simp, ?_⟩
  intro checker sentiment tp empathyL positiveL negativeL w t
  simp only [score_email, hck]

/-- C7 witness: a concrete sample with `received_at` absent. -/
theorem C7_witness :
    (sampleMissingReceived.received_at = none ∨
      sampleMissingReceived.first_response_at = none) ∧
    ((check_response_time sampleMissingReceived.received_at
        sampleMissingReceived.first_response_at).score = some ((1 : ℚ)/2) ∧
      ("incomplete_data", (1 : ℚ)) ∈
        (check_response_time sampleMissingReceived.received_at
          sampleMissingReceived.first_response_at).details ∧
      ∀ (checker : Option (String → Nat × Nat)) (sentiment : String → ℚ)
        (tp : TemplatePatterns) (empathyL positiveL negativeL : List String)
        (w : ScoringWeights) (t : String),
        (score_email checker sentiment tp empathyL positiveL negativeL w t
            sampleMissingReceived).response_time_score = some ((1 : ℚ)/2)) :=
  ⟨Or.inl rfl, C7_response_time_neutral_default sampleMissingReceived (Or.inl rfl)⟩

/-- C3: for every email sample and every valid configuration (nonnegative
weights; any backends, patterns and phrase lists), each of the five sub-scores
`score_email` reports lies in [0,1], and the total score lies in [0,100]. -/
theorem C3_scores_in_range (checker : Option (String → Nat × Nat))
    (sentiment : String → ℚ) (tp : TemplatePatterns)
    (empathyL positiveL negativeL : List String) (w : ScoringWeights)
    (t : String) (sample : EmailSample)
    (hw1 : 0 ≤ w.spelling_grammar) (hw2 : 0 ≤ w.tone) (hw3 : 0 ≤ w.empathy)
    (hw4 : 0 ≤ w.template_consistency) (hw5 : 0 ≤ w.response_time) :
    (∀ v, (score_email checker sentiment tp empathyL positiveL negativeL w t
        sample).spelling_grammar_score = some v → 0 ≤ v ∧ v ≤ 1) ∧
    (∀ v, (score_email checker sentiment tp empathyL positiveL negativeL w t
        sample).tone_score = some v → 0 ≤ v ∧ v ≤ 1) ∧
    (∀ v, (score_email checker sentiment tp empathyL positiveL negativeL w t
        sample).empathy_score = some v → 0 ≤ v ∧ v ≤ 1) ∧
    (∀ v, (score_email checker sentiment tp empathyL positiveL negativeL w t
        sample).template_consistency_score = some v → 0 ≤ v ∧ v ≤ 1) ∧
    (∀ v, (score_email checker sentiment tp empathyL positiveL negativeL w t
        sample).response_time_score = some v → 0 ≤ v ∧ v ≤ 1) ∧
    0 ≤ (score_email checker sentiment tp empathyL positiveL negativeL w t
        sample).total_score ∧
    (score_email checker sentiment tp empathyL positiveL negativeL w t
        sample).total_score ≤ 100 := by
  have htot := aggregateTotal_mem w
    (check_spelling_grammar checker sample.body).score
    (check_tone sentiment positiveL negativeL sample.body).score
    (check_empathy empathyL sample.body).score
    (check_template_consistency tp sample.body).score
    (check_response_time sample.received_at sample.first_response_at).score
    hw1 hw2 hw3 hw4 hw5
    (check_spelling_grammar_mem checker sample.body)
    (check_tone_mem sentiment positiveL negativeL sample.body)
    (check_empathy_mem empathyL sample.body)
    (check_template_consistency_mem tp sample.body)
    (check_response_time_mem sample.received_at sample.first_response_at)
  exact ⟨check_spelling_grammar_mem checker sample.body,
    check_tone_mem sentiment positiveL negativeL sample.body,
    check_empathy_mem empathyL sample.body,
    check_template_consistency_mem tp sample.body,
    check_response_time_mem sample.received_at sample.first_response_at,
    htot.1, htot.2⟩

/-- C3 witness: default configuration, a concrete sample. -/
theorem C3_witness :
    (0 : ℚ) ≤ defaultWeights.spelling_grammar ∧
    ((∀ v, (score_email (some (fun _ => (0, 0))) (fun _ => 0) load_template_patterns
        empathy_phrases positive_phrases negative_phrases defaultWeights "2025-01-01"
        sampleMissingReceived).spelling_grammar_score = some v → 0 ≤ v ∧ v ≤ 1) ∧
      (∀ v, (score_email (some (fun _ => (0, 0))) (fun _ => 0) load_template_patterns
        empathy_phrases positive_phrases negative_phrases defaultWeights "2025-01-01"
        sampleMissingReceived).tone_score = some v → 0 ≤ v ∧ v ≤ 1) ∧
      (∀ v, (score_email (some (fun _ => (0, 0))) (fun _ => 0) load_template_patterns
        empathy_phrases positive_phrases negative_phrases defaultWeights "2025-01-01"
        sampleMissingReceived).empathy_score = some v → 0 ≤ v ∧ v ≤ 1) ∧
      (∀ v, (score_email (some (fun _ => (0, 0))) (fun _ => 0) load_template_patterns
        empathy_phrases positive_phrases negative_phrases defaultWeights "2025-01-01"
        sampleMissingReceived).template_consistency_score = some v → 0 ≤ v ∧ v ≤ 1) ∧
      (∀ v, (score_email (some (fun _ => (0, 0))) (fun _ => 0) load_template_patterns
        empathy_phrases positive_phrases negative_phrases defaultWeights "2025-01-01"
        sampleMissingReceived).response_time_score = some v → 0 ≤ v ∧ v ≤ 1) ∧
      0 ≤ (score_email (some (fun _ => (0, 0))) (fun _ => 0) load_template_patterns
        empathy_phrases positive_phrases negative_phrases defaultWeights "2025-01-01"
        sampleMissingReceived).total_score ∧
      (score_email (some (fun _ => (0, 0))) (fun _ => 0) load_template_patterns
        empathy_phrases positive_phrases negative_phrases defaultWeights "2025-01-01"
        sampleMissingReceived).total_score ≤ 100) :=
  ⟨by norm_num [defaultWeights],
    C3_scores_in_range (some (fun _ => (0, 0))) (fun _ => 0) load_template_patterns
      empathy_phrases positive_phrases negative_phrases defaultWeights "2025-01-01"
      sampleMissingReceived
      (by norm_num [defaultWeights]) (by norm_num [defaultWeights])
      (by norm_num [defaultWeights]) (by norm_num [defaultWeights])
      (by norm_num [defaultWeights])⟩

/-- C4: when the spelling/grammar backend is unavailable (`checker = none`),
that sub-score is marked indeterminate (`none`, in particular not zero), the
scoring call still returns a full result (the functions are total, so the call
never aborts), and the total equals
`100 * Σ(weight_i * score_i) / Σ(active weights)` over the four remaining
active sub-scores — equivalently the weighted sum with the remaining weights
renormalized by their sum `W`. -/
theorem C4_backend_unavailable_renormalizes (sentiment : String → ℚ)
    (tp : TemplatePatterns) (empathyL positiveL negativeL : List String)
    (w : ScoringWeights) (t : String) (sample : EmailSample) :
    ∃ vt ve vtc vrt W : ℚ,
      W = w.tone + w.empathy + w.template_consistency + w.response_time ∧
      (score_email none sentiment tp empathyL positiveL negativeL w t
        sample).spelling_grammar_score = none ∧
      (score_email none sentiment tp empathyL positiveL negativeL w t
        sample).spelling_grammar_score ≠ some 0 ∧
      (score_email none sentiment tp empathyL positiveL negativeL w t
        sample).tone_score = some vt ∧
      (score_email none sentiment tp empathyL positiveL negativeL w t
        sample).empathy_score = some ve ∧
      (score_email none sentiment tp empathyL positiveL negativeL w t
        sample).template_consistency_score = some vtc ∧
      (score_email none sentiment tp empathyL positiveL negativeL w t
        sample).response_time_score = some vrt ∧
      (score_email none sentiment tp empathyL positiveL negativeL w t
        sample).total_score =
        100 * ((w.tone * vt + w.empathy * ve + w.template_consistency * vtc +
          w.response_time * vrt) / W) ∧
      (score_email none sentiment tp empathyL positiveL negativeL w t
        sample).total_score =
        100 * ((w.tone / W) * vt + (w.empathy / W) * ve +
          (w.template_consistency / W) * vtc + (w.response_time / W) * vrt) := by
  obtain ⟨vrt, hvrt⟩ : ∃ vrt,
      (check_response_time sample.received_at sample.first_response_at).score = some vrt := by
    cases sample.received_at <;> cases sample.first_response_at <;> exact ⟨_, rfl⟩
  refine ⟨_, _, _, _, _, rfl, rfl, fun hc => Option.noConfusion hc, rfl, rfl, rfl, hvrt, ?_, ?_⟩
  · show aggregateTotal w (check_spelling_grammar none sample.body).score
      (check_tone sentiment positiveL negativeL sample.body).score
      (check_empathy empathyL sample.body).score
      (check_template_consistency tp sample.body).score
      (check_response_time sample.received_at sample.first_response_at).score = _
    rw [hvrt]
    simp only [aggregateTotal, check_spelling_grammar, check_tone, check_empathy,
      check_template_consistency, activeNum, activeDen, zero_add]
  · show aggregateTotal w (check_spelling_grammar none sample.body).score
      (check_tone sentiment positiveL negativeL sample.body).score
      (check_empathy empathyL sample.body).score
      (check_template_consistency tp sample.body).score
      (check_response_time sample.received_at sample.first_response_at).score = _
    rw [hvrt]
    simp only [aggregateTotal, check_spelling_grammar, check_tone, check_empathy,
      check_template_consistency, activeNum, activeDen, zero_add, div_eq_mul_inv]
    ring

/-- C8: scoring is a total function of the email text, so it never crashes on
malformed input (empty string, binary garbage, arbitrarily long bodies); for
the empty-string body — with any checker backend that flags no issues on empty
text and any sentiment backend that is neutral on empty text — the
grammar/spelling score is 1.0, the tone score is 0.5, the empathy score is 0.0
and the template-consistency score is 0.0. -/
theorem C8_empty_body_defaults (f : String → Nat × Nat) (sentiment : String → ℚ)
    (tid aid gid : Nat) (ra fr : Option ℚ) (t : String)
    (hf : f "" = (0, 0)) (hs : sentiment "" = 0) :
    (score_email (some f) sentiment load_template_patterns empathy_phrases
      positive_phrases negative_phrases defaultWeights t
      (emptyBodySample tid aid gid ra fr)).spelling_grammar_score = some 1 ∧
    (score_email (some f) sentiment load_template_patterns empathy_phrases
      positive_phrases negative_phrases defaultWeights t
      (emptyBodySample tid aid gid ra fr)).tone_score = some ((1 : ℚ)/2) ∧
    (score_email (some f) sentiment load_template_patterns empathy_phrases
      positive_phrases negative_phrases defaultWeights t
      (emptyBodySample tid aid gid ra fr)).empathy_score = some 0 ∧
    (score_email (some f) sentiment load_template_patterns empathy_phrases
      positive_phrases negative_phrases defaultWeights t
      (emptyBodySample tid aid gid ra fr)).template_consistency_score = some 0 := by
  refine ⟨?_, ?_, ?_, ?_⟩
  · show (check_spelling_grammar (some f) "").score = some 1
    simp only [check_spelling_grammar, hf]
    norm_num [wordCount, countWords, clamp01]
  · show (check_tone sentiment positive_phrases negative_phrases "").score = some ((1 : ℚ)/2)
    simp only [check_tone, hs]
    rw [if_pos]
    refine ⟨by norm_num [toneEps], by decide, by decide⟩
  · show (check_empathy empathy_phrases "").score = some 0
    have hc : empathyCount empathy_phrases "" = 0 := by decide
    simp [check_empathy, hc, empathyTarget]
  · show (check_template_consistency load_template_patterns "").score = some 0
    have hg : anyMatch load_template_patterns.greeting_patterns "" = false := by decide
    have hsg : anyMatch load_template_patterns.signature_patterns "" = false := by decide
    have hcl : anyMatch load_template_patterns.standard_closings "" = false := by decide
    have hfc : formattingCue load_template_patterns "" = false := by decide
    simp [check_template_consistency, hg, hsg, hcl, hfc, b2q]

/-- C8 witness: concrete backends flagging nothing on the empty body. -/
theorem C8_witness :
    ((fun _ : String => ((0 : Nat), (0 : Nat))) "" = (0, 0)) ∧
    ((fun _ : String => (0 : ℚ)) "" = 0) ∧
    ((score_email (some (fun _ : String => ((0 : Nat), (0 : Nat)))) (fun _ : String => (0 : ℚ))
        load_template_patterns empathy_phrases positive_phrases negative_phrases
        defaultWeights "2025-01-01"
        (emptyBodySample 1 2 3 none none)).spelling_grammar_score = some 1 ∧
      (score_email (some (fun _ : String => ((0 : Nat), (0 : Nat)))) (fun _ : String => (0 : ℚ))
        load_template_patterns empathy_phrases positive_phrases negative_phrases
        defaultWeights "2025-01-01"
        (emptyBodySample 1 2 3 none none)).tone_score = some ((1 : ℚ)/2) ∧
      (score_email (some (fun _ : String => ((0 : Nat), (0 : Nat)))) (fun _ : String => (0 : ℚ))
        load_template_patterns empathy_phrases positive_phrases negative_phrases
        defaultWeights "2025-01-01"
        (emptyBodySample 1 2 3 none none)).empathy_score = some 0 ∧
      (score_email (some (fun _ : String => ((0 : Nat), (0 : Nat)))) (fun _ : String => (0 : ℚ))
        load_template_patterns empathy_phrases positive_phrases negative_phrases
        defaultWeights "2025-01-01"
        (emptyBodySample 1 2 3 none none)).template_consistency_score = some 0) :=
  ⟨rfl, rfl,
    C8_empty_body_defaults (fun _ => (0, 0)) (fun _ => 0) 1 2 3 none none "2025-01-01" rfl rfl⟩

/-- C9 (counterexample): the claim asserts the agent row is upserted so the
store reflects the latest name and email.  Concretely: agent 1 is first
encountered as "Alice Smith" and later as "Alice Jones"; the second encounter
leaves the stored row unchanged, so the store keeps the stale first-encounter
name rather than the latest one. -/
theorem C9_counterexample :
    fetch_agent_store (fetch_agent_store [] 1 "Alice Smith" "as@example.com")
        1 "Alice Jones" "aj@example.com" =
      [{ id := 1, name := "Alice Smith", email := "as@example.com" }] ∧
    "Alice Smith" ≠ "Alice Jones" := by
  constructor
  · rfl
  · decide

/-- C9 (amended): an agent row is created lazily on first encounter and never
deleted; on a subsequent encounter of the same agent id the engine leaves the
existing row untouched (insert-if-absent, not upsert): after any encounter,
every previously stored row is still present, a row with the encountered id is
present, and every stored row either predates the encounter or is exactly the
newly inserted one. -/
theorem C9_agent_insert_if_absent (store : List Agent) (i : Nat) (n e : String) :
    (∀ a, a ∈ store → a ∈ fetch_agent_store store i n e) ∧
    (∃ a, a ∈ fetch_agent_store store i n e ∧ a.id = i) ∧
    (∀ a, a ∈ fetch_agent_store store i n e →
      a ∈ store ∨ a = { id := i, name := n, email := e }) := by
  unfold fetch_agent_store
  by_cases hmem : store.any (fun a => a.id == i) = true
  · rw [if_pos hmem]
    refine ⟨fun a ha => ha, ?_, fun a ha => Or.inl ha⟩
    obtain ⟨a, ha, hid⟩ := List.any_eq_true.mp hmem
    exact ⟨a, ha, by simpa using hid⟩
  · rw [if_neg hmem]
    refine ⟨fun a ha => List.mem_append_left _ ha, ?_, ?_⟩
    · exact ⟨{ id := i, name := n, email := e },
        List.mem_append_right _ (List.mem_singleton_self _), rfl⟩
    · intro a ha
      rcases List.mem_append.mp ha with h | h
      · exact Or.inl h
      · exact Or.inr (List.mem_singleton.mp h)

/-- C9 amended witness: the empty store and one concrete encounter. -/
theorem C9_witness :
    (∀ a, a ∈ ([] : List Agent) → a ∈ fetch_agent_store [] 1 "Alice Smith" "as@example.com") ∧
    (∃ a, a ∈ fetch_agent_store [] 1 "Alice Smith" "as@example.com" ∧ a.id = 1) ∧
    (∀ a, a ∈ fetch_agent_store [] 1 "Alice Smith" "as@example.com" →
      a ∈ ([] : List Agent) ∨ a = { id := 1, name := "Alice Smith", email := "as@example.com" }) :=
  C9_agent_insert_if_absent [] 1 "Alice Smith" "as@example.com"

/-- C10 (counterexample): the claim quantifies over every body that marks
bullets with `•` and has no paragraph break or numbered list.  The concrete
body `mojibakeBody` marks a bullet with `•`, contains no paragraph break and
no numbered list, yet its formatting-cue criterion is satisfied, because the
body also happens to contain the mojibake byte sequence the loaded pattern
expects. -/
theorem C10_counterexample :
    mojibakeBody.toList.contains '•' = true ∧
    Pat.search load_template_patterns.paragraph_breaks mojibakeBody = false ∧
    Pat.search load_template_patterns.numbered_list mojibakeBody = false ∧
    formattingCue load_template_patterns mojibakeBody = true := by
  refine ⟨by decide, by decide, by decide, by decide⟩

/-- C10 (amended): the loaded bullet-point pattern is literally the
three-character mojibake sequence `â€¢` followed by `\s`; consequently, for
every body that marks bullets with the Unicode bullet `•`, contains no
occurrence of the mojibake sequence itself, and contains no paragraph break
and no numbered list, the formatting-cue criterion of the template-consistency
scorer is not satisfied. -/
theorem C10_mojibake_bullet (body : String)
    (hbul : body.toList.contains '•' = true)
    (hmoj : countOccs ['â', '€', '¢'] body.toList = 0)
    (hpar : Pat.search load_template_patterns.paragraph_breaks body = false)
    (hnum : Pat.search load_template_patterns.numbered_list body = false) :
    load_template_patterns.bullet_points =
      Pat.seq (Pat.lit ['â', '€', '¢']) (Pat.cls isSpaceChar) ∧
    formattingCue load_template_patterns body = false := by
  refine ⟨rfl, ?_⟩
  have hb : Pat.search load_template_patterns.bullet_points body = false :=
    searchAux_seq_lit_eq_false ['â', '€', '¢'] (Pat.cls isSpaceChar) body.toList hmoj
  unfold formattingCue
  rw [hpar, hb, hnum]
  rfl

/-- C10 witness: a concrete bulleted body without the mojibake sequence. -/
theorem C10_witness :
    ("Hello,\n• first\n• second".toList.contains '•' = true ∧
      countOccs ['â', '€', '¢'] "Hello,\n• first\n• second".toList = 0 ∧
      Pat.search load_template_patterns.paragraph_breaks "Hello,\n• first\n• second" = false ∧
      Pat.search load_template_patterns.numbered_list "Hello,\n• first\n• second" = false) ∧
    (load_template_patterns.bullet_points =
        Pat.seq (Pat.lit ['â', '€', '¢']) (Pat.cls isSpaceChar) ∧
      formattingCue load_template_patterns "Hello,\n• first\n• second" = false) :=
  ⟨⟨by decide, by decide, by decide, by decide⟩,
    C10_mojibake_bullet "Hello,\n• first\n• second" (by decide) (by decide)
      (by decide) (by decide)⟩

end EmailQC
